import Mathlib

/-!
Shallow embedding of the recipe-discovery application (a React client over a
generative-AI recipe provider) and proofs about its data model and state
transitions.  Each definition is translated from the corresponding source
function; provider calls (text generation, image generation) are abstracted
as explicit oracle parameters so that the surrounding control flow can be
verified as pure functions.
-/

namespace RecipeAI

/-- The three UI languages (types.ts `Language`). -/
inductive Language where
  | en
  | fr
  | ar
deriving Repr, DecidableEq

/-- An ingredient of a recipe (types.ts `Ingredient`); the JS number quantity
is modelled as a rational. -/
structure Ingredient where
  name : String
  quantity : ℚ
  unit : String
deriving Repr, DecidableEq

/-- Nutrition summary: four free-text fields (types.ts `Nutrition`). -/
structure Nutrition where
  calories : String
  protein : String
  carbs : String
  fat : String
deriving Repr, DecidableEq

/-- A recipe without its image, i.e. the TS type `Omit<Recipe, 'imageUrl'>`
used by the fetch service before images are joined in. -/
structure RecipeData where
  recipeName : String
  description : String
  servings : Int
  cookingTime : String
  nutrition : Nutrition
  rating : Int
  ingredients : List Ingredient
  standardInstructions : List String
  thermomixInstructions : List String
deriving Repr, DecidableEq

/-- A fully populated recipe (types.ts `Recipe`). -/
structure Recipe extends RecipeData where
  imageUrl : String
deriving Repr, DecidableEq

/-- A JS thrown value as the service code distinguishes them: either an
`Error` carrying a message (`instanceof Error`), or any other thrown value. -/
inductive Thrown where
  | isError (msg : String)
  | notError
deriving Repr, DecidableEq

/-- Outcome of one image-generation attempt against the provider: either a
data-URL string is produced, or the attempt throws. -/
inductive AttemptResult where
  | success (url : String)
  | failure (e : Thrown)
deriving Repr, DecidableEq

/-- The `all` / `favorites` list filter of the root controller. -/
inductive Filter where
  | all
  | favorites
deriving Repr, DecidableEq

/-- The root controller's state (the `useState` hooks of `App`). -/
structure AppState where
  language : Language
  recipes : List Recipe
  selectedRecipe : Option Recipe
  isLoading : Bool
  error : Option String
  favorites : List String
  filter : Filter
deriving Repr, DecidableEq

namespace App

/-- `App.toggleFavorite`: if the name is present, filter out every occurrence;
otherwise append it. -/
def toggleFavorite (recipeName : String) (prev : List String) : List String :=
  if prev.contains recipeName then
    prev.filter fun name => name != recipeName
  else
    prev ++ [recipeName]

end App

/-- A JSON value, the result of `JSON.parse` on the provider's response body. -/
inductive Json where
  | null
  | bool (b : Bool)
  | num (q : ℚ)
  | str (s : String)
  | arr (elems : List Json)
  | obj (fields : List (String × Json))

/-- First-match lookup of a key among an object's fields. -/
def lookupField : List (String × Json) → String → Option Json
  | [], _ => none
  | (k, v) :: rest, key => if k = key then some v else lookupField rest key

/-- JS property access `j[key]` as used on the parsed response: defined members
of objects; every other access yields `undefined`, modelled as `none`. -/
def Json.getMember (j : Json) (key : String) : Option Json :=
  match j with
  | .obj fields => lookupField fields key
  | _ => none

/-- JS truthiness of a parsed JSON value (`!parsedData`). -/
def Json.truthy : Json → Bool
  | .null => false
  | .bool b => b
  | .num q => decide (q ≠ 0)
  | .str s => decide (s ≠ "")
  | .arr _ => true
  | .obj _ => true

namespace GeminiService

/-- The body of `generateImageForRecipeWithRetry`'s
`for (let i = 0; i < retries; i++)` loop, with the provider call abstracted as
the oracle `att` giving the outcome of attempt `i`.  `remaining = retries - i`
counts the iterations still allowed; when it reaches zero the loop has exited
and the function throws its final "after N attempts" error. -/
def retryGo (att : Nat → AttemptResult) (recipeName : String) (retries : Nat) :
    Nat → Nat → Except Thrown String
  | _, 0 =>
    .error (.isError ("Failed to generate image for " ++ recipeName ++ " after "
      ++ toString retries ++ " attempts."))
  | i, remaining + 1 =>
    match att i with
    | .success url => .ok url
    | .failure e =>
      if i = retries - 1 then .error e
      else retryGo att recipeName retries (i + 1) remaining

/-- `generateImageForRecipeWithRetry(recipe, retries)`: run up to `retries`
image-generation attempts, returning the first successful image data-URL, or
rethrowing the last attempt's error.  The source's default is `retries = 3`,
applied at its call sites below. -/
def generateImageForRecipeWithRetry (att : Nat → AttemptResult)
    (recipeName : String) (retries : Nat) : Except Thrown String :=
  retryGo att recipeName retries 0 retries

/-- `regenerateRecipeImage(recipe)`: a single attempt
(`generateImageForRecipeWithRetry(recipe, 1)`); an `Error` is rethrown
unchanged, any other thrown value is wrapped in a fresh `Error`.  The recipe
itself is only read (for the prompt), never modified. -/
def regenerateRecipeImage (att : Nat → AttemptResult) (recipe : RecipeData) :
    Except Thrown String :=
  match generateImageForRecipeWithRetry att recipe.recipeName 1 with
  | .ok url => .ok url
  | .error (.isError m) => .error (.isError m)
  | .error .notError =>
    .error (.isError "An unknown error occurred while regenerating the image.")

/-- The per-recipe promise of the batch fan-out:
`generateImageForRecipeWithRetry(recipe).catch(e => '')` — the image URL on
success within 3 attempts, the empty string once retries are exhausted. -/
def imageUrlOrEmpty (att : Nat → AttemptResult) (recipeName : String) : String :=
  match generateImageForRecipeWithRetry att recipeName 3 with
  | .ok url => url
  | .error _ => ""

/-- Step 2 of `fetchRecipes`: fan out one image request per recipe (the oracle
`att i` gives recipe `i`'s attempt outcomes), await all of them, then join the
image URLs positionally with their source recipes. -/
def fetchStep2 (att : Nat → Nat → AttemptResult) (recipesData : List RecipeData) :
    List Recipe :=
  let imageUrls := recipesData.mapIdx fun i r => imageUrlOrEmpty (att i) r.recipeName
  recipesData.mapIdx fun i r => ⟨r, imageUrls.getD i ""⟩

/-- The parse / shape-check portion of `fetchRecipes` (service): after
`JSON.parse`, fail unless the parsed value is truthy and its `recipes` member
is an array. -/
def parseStage (parsedData : Json) : Except Thrown (List Json) :=
  if parsedData.truthy = false then
    .error (.isError "Failed to parse recipes from API response.")
  else
    match parsedData.getMember "recipes" with
    | some (.arr recipes) => .ok recipes
    | _ => .error (.isError "Failed to parse recipes from API response.")

/-- `fetchRecipes` (service) from the parsed response onward: shape-check the
parsed JSON, short-circuit an empty recipe array to `[]`, otherwise run the
image fan-out and join.  `decode` stands for the unchecked TS cast
`parsedData.recipes as Omit<Recipe, 'imageUrl'>[]` — the elements are not
validated locally. -/
def fetchRecipes (att : Nat → Nat → AttemptResult) (decode : Json → RecipeData)
    (parsedData : Json) : Except Thrown (List Recipe) :=
  match parseStage parsedData with
  | .error e => .error e
  | .ok recipesJson =>
    let recipesData := recipesJson.map decode
    if recipesData.length = 0 then .ok []
    else .ok (fetchStep2 att recipesData)

end GeminiService

namespace App

/-- The message the controller derives from a caught value:
`err instanceof Error ? err.message : 'An unknown error occurred'`. -/
def errorMessageOf : Thrown → String
  | .isError m => m
  | .notError => "An unknown error occurred"

/-- The synchronous prefix of `App.fetchRecipes(searchTerm)`, i.e. the state
updates applied when the fetch is initiated, before the provider call
resolves: enter loading, clear the error, and clear the selection only when
the search term is falsy (empty). -/
def fetchRecipesStart (searchTerm : String) (s : AppState) : AppState :=
  let s1 : AppState := { s with isLoading := true, error := none }
  if searchTerm = "" then { s1 with selectedRecipe := none } else s1

/-- The state updates applied when `App.fetchRecipes`'s awaited provider call
settles: on success store the recipes, on failure store the derived message
and clear the recipe list; either way leave the loading state. -/
def fetchRecipesResolve (result : Except Thrown (List Recipe)) (s : AppState) :
    AppState :=
  match result with
  | .ok fetchedRecipes => { s with recipes := fetchedRecipes, isLoading := false }
  | .error err =>
    { s with error := some (errorMessageOf err), recipes := [], isLoading := false }

/-- `App.handleSearch(searchTerm)`: reset the filter to `all`, then initiate
`fetchRecipes(searchTerm)` (whose synchronous prefix is `fetchRecipesStart`). -/
def handleSearch (searchTerm : String) (s : AppState) : AppState :=
  fetchRecipesStart searchTerm { s with filter := Filter.all }

/-- `App.handleUpdateRecipe(updatedRecipe)`: select the updated recipe and
replace every list entry bearing its name. -/
def handleUpdateRecipe (updatedRecipe : Recipe) (s : AppState) : AppState :=
  { s with
    selectedRecipe := some updatedRecipe,
    recipes := s.recipes.map fun r =>
      if r.recipeName = updatedRecipe.recipeName then updatedRecipe else r }

end App

namespace RecipeDetail

/-- The success path of `RecipeDetail.handleRegenerateImage`: once
`regenerateRecipeImage` resolves with a new URL, hand
`{ ...recipe, imageUrl: newImageUrl }` to the controller's
`handleUpdateRecipe`. -/
def handleRegenerateImageSuccess (recipe : Recipe) (newImageUrl : String)
    (s : AppState) : AppState :=
  App.handleUpdateRecipe { recipe with imageUrl := newImageUrl } s

end RecipeDetail

/-- The characters ECMAScript `String.prototype.trim` removes: the WhiteSpace
production (TAB, VT, FF, SP, NBSP, ZWNBSP and the Space_Separator category:
OGHAM SPACE MARK, U+2000–U+200A, NARROW NO-BREAK SPACE, MEDIUM MATHEMATICAL
SPACE, IDEOGRAPHIC SPACE) together with the LineTerminator production (LF,
CR, LINE SEPARATOR, PARAGRAPH SEPARATOR). -/
def jsWhitespace (c : Char) : Bool :=
  c == ' ' || c == '\t' || c == '\n' || c == '\r' ||
  c == Char.ofNat 0x0B || c == Char.ofNat 0x0C ||
  c == Char.ofNat 0x00A0 || c == Char.ofNat 0xFEFF ||
  c == Char.ofNat 0x1680 ||
  (decide (0x2000 ≤ c.toNat) && decide (c.toNat ≤ 0x200A)) ||
  c == Char.ofNat 0x2028 || c == Char.ofNat 0x2029 ||
  c == Char.ofNat 0x202F || c == Char.ofNat 0x205F ||
  c == Char.ofNat 0x3000

/-- `term.trim()`: remove leading and trailing whitespace. -/
def jsTrim (s : String) : String :=
  ⟨((s.data.dropWhile jsWhitespace).reverse.dropWhile jsWhitespace).reverse⟩

namespace SearchBar

/-- `SearchBar.handleSubmit`: dispatch `onSearch(term.trim())` only when the
trimmed text is truthy (non-empty); the returned value is the dispatched
search term, `none` when nothing is dispatched. -/
def handleSubmit (term : String) : Option String :=
  if jsTrim term = "" then none else some (jsTrim term)

end SearchBar

/-- A JSON value that is a string (schema `Type.STRING`). -/
def Json.isString : Json → Bool
  | .str _ => true
  | _ => false

/-- A JSON value that is a number (schema `Type.NUMBER` / `Type.INTEGER`). -/
def Json.isNumber : Json → Bool
  | .num _ => true
  | _ => false

/-- The member `key` of `j` exists and satisfies `p`. -/
def Json.memberIs (j : Json) (key : String) (p : Json → Bool) : Bool :=
  match j.getMember key with
  | some v => p v
  | none => false

/-- A JSON array all of whose elements are strings. -/
def Json.isStringArray : Json → Bool
  | .arr elems => elems.all Json.isString
  | _ => false

/-- An ingredient object as declared by the service's response schema
(`ingredients.items`): required `name`, `quantity`, `unit`. -/
def Json.isIngredientObject (j : Json) : Bool :=
  j.memberIs "name" Json.isString &&
  j.memberIs "quantity" Json.isNumber &&
  j.memberIs "unit" Json.isString

/-- A nutrition object as declared by `nutritionSchema`: four required string
fields. -/
def Json.isNutritionObject (j : Json) : Bool :=
  j.memberIs "calories" Json.isString &&
  j.memberIs "protein" Json.isString &&
  j.memberIs "carbs" Json.isString &&
  j.memberIs "fat" Json.isString

/-- A recipe object as declared by `recipeDataSchema`: all nine required
fields present with their declared types. -/
def Json.isRecipeObject (j : Json) : Bool :=
  j.memberIs "recipeName" Json.isString &&
  j.memberIs "description" Json.isString &&
  j.memberIs "servings" Json.isNumber &&
  j.memberIs "cookingTime" Json.isString &&
  j.memberIs "rating" Json.isNumber &&
  j.memberIs "nutrition" Json.isNutritionObject &&
  j.memberIs "ingredients" (fun v =>
    match v with
    | .arr elems => elems.all Json.isIngredientObject
    | _ => false) &&
  j.memberIs "standardInstructions" Json.isStringArray &&
  j.memberIs "thermomixInstructions" Json.isStringArray

/-- The parsed top level contains an array of recipe objects (the shape the
spec says is required of a successful response), per `responseSchema`. -/
def Json.hasRecipeObjectArray (parsedData : Json) : Bool :=
  match parsedData.getMember "recipes" with
  | some (.arr elems) => elems.all Json.isRecipeObject
  | _ => false

/-- The spec's retry policy for one batch recipe, written from its words: up
to three attempts, the first successful image is kept, and exhausting all
three attempts degrades to the empty image reference.  Compared below with
the code's `imageUrlOrEmpty`. -/
def imageWithinThreeAttempts (a : Nat → AttemptResult) : String :=
  match a 0 with
  | .success url => url
  | .failure _ =>
    match a 1 with
    | .success url => url
    | .failure _ =>
      match a 2 with
      | .success url => url
      | .failure _ => ""

/-- The shape condition `fetchRecipes` actually checks before extracting the
recipe array: the parsed value is truthy and its `recipes` member is an array
(`!(!parsedData || !Array.isArray(parsedData.recipes))`). -/
def parseShapeOk (parsedData : Json) : Bool :=
  parsedData.truthy &&
    (match parsedData.getMember "recipes" with
     | some (.arr _) => true
     | _ => false)

/-! Concrete sample data for counterexamples and witnesses. -/

/-- A sample nutrition summary. -/
def sampleNutrition : Nutrition := ⟨"450 kcal", "25 g", "50 g", "15 g"⟩

/-- A sample recipe without image. -/
def sampleRecipeData : RecipeData :=
  ⟨"Tomato Soup", "A warm classic.", 2, "30 minutes", sampleNutrition, 4,
    [⟨"tomato", 2, "pcs"⟩], ["Chop.", "Simmer."], ["Blend."]⟩

/-- A sample recipe. -/
def sampleRecipe : Recipe := ⟨sampleRecipeData, "https://img.example/soup"⟩

/-- A second recipe bearing the same generated name as `sampleRecipe` but
with different content — the name-collision case the data model allows. -/
def sampleRecipeB : Recipe :=
  ⟨⟨"Tomato Soup", "A different soup.", 4, "45 minutes", sampleNutrition, 5,
    [], ["Stir."], ["Mix."]⟩, "https://img.example/other"⟩

/-- A controller state with a recipe selected. -/
def sampleState : AppState :=
  ⟨Language.en, [sampleRecipe], some sampleRecipe, false, none, [],
    Filter.favorites⟩

/-- A controller state whose list holds two recipes with the same name. -/
def collidingState : AppState :=
  ⟨Language.en, [sampleRecipe, sampleRecipeB], some sampleRecipe, false, none,
    [], Filter.all⟩

/-- A batch of two recipes awaiting images. -/
def batchRecipes : List RecipeData := [sampleRecipeData, sampleRecipeB.toRecipeData]

/-- A batch oracle under which every image attempt for recipe 0 throws while
every attempt for the other recipes succeeds. -/
def attMixed : Nat → Nat → AttemptResult := fun i _ =>
  if i = 0 then .failure .notError else .success "https://img.example/ok"

/-- A batch oracle under which every image attempt throws a non-`Error`. -/
def attAllFail : Nat → Nat → AttemptResult := fun _ _ => .failure .notError

/-- A single-recipe oracle whose every attempt succeeds. -/
def attOk : Nat → AttemptResult := fun _ => .success "https://img.example/regen"

/-- The unchecked cast of the response's recipe array, instantiated as a
constant decoder for concrete runs of the service model. -/
def castDecode : Json → RecipeData := fun _ => sampleRecipeData

/-- A parsed response whose `recipes` member is an array of non-recipe
values. -/
def parsedNonRecipeArray : Json := Json.obj [("recipes", Json.arr [Json.num 1])]

/-- A parsed response whose `recipes` member is the empty array. -/
def parsedEmptyArray : Json := Json.obj [("recipes", Json.arr [])]

/-! Helper lemmas. -/

/-- `List.mapIdx` indexed through a membership proof. -/
theorem list_getElem_mapIdx {α β : Type} (l : List α) (f : Nat → α → β)
    (i : Nat) (h : i < l.length) (hl : i < (l.mapIdx f).length) :
    (l.mapIdx f)[i] = f i l[i] := by
  have h2 := List.get_mapIdx l f i h hl
  simp only [List.get_eq_getElem] at h2
  exact h2

/-- `List.mapIdx` indexed through `getElem?`. -/
theorem list_getElem?_mapIdx {α β : Type} (l : List α) (f : Nat → α → β)
    (i : Nat) (h : i < l.length) : (l.mapIdx f)[i]? = some (f i l[i]) := by
  have hl : i < (l.mapIdx f).length := by
    rw [List.length_mapIdx]
    exact h
  rw [List.getElem?_eq_getElem hl, list_getElem_mapIdx l f i h hl]

/-- The code's per-recipe batch image result equals the spec's retry policy:
first success within three attempts, else the empty reference. -/
theorem imageUrlOrEmpty_eq_spec (a : Nat → AttemptResult) (name : String) :
    GeminiService.imageUrlOrEmpty a name = imageWithinThreeAttempts a := by
  rcases h0 : a 0 with u0 | e0 <;> rcases h1 : a 1 with u1 | e1 <;>
    rcases h2 : a 2 with u2 | e2 <;>
    simp [GeminiService.imageUrlOrEmpty, GeminiService.generateImageForRecipeWithRetry,
      GeminiService.retryGo, imageWithinThreeAttempts, h0, h1, h2]

/-- Elements surviving `dropWhile p` all satisfying `p` means the whole list
satisfies `p`. -/
theorem all_of_dropWhile (p : Char → Bool) (l : List Char)
    (h : ∀ x ∈ l.dropWhile p, p x) : ∀ x ∈ l, p x := by
  intro x hx
  rw [← List.takeWhile_append_dropWhile p l] at hx
  rcases List.mem_append.mp hx with h1 | h2
  · exact List.mem_takeWhile_imp h1
  · exact h x h2

/-- The trimmed text is empty exactly when every character of the input is
whitespace. -/
theorem jsTrim_eq_empty_iff (s : String) :
    jsTrim s = "" ↔ ∀ c ∈ s.data, jsWhitespace c := by
  unfold jsTrim
  rw [String.ext_iff]
  show ((s.data.dropWhile jsWhitespace).reverse.dropWhile jsWhitespace).reverse
      = ("" : String).data ↔ _
  have hdata : ("" : String).data = [] := rfl
  rw [hdata, List.reverse_eq_nil_iff, List.dropWhile_eq_nil_iff]
  constructor
  · intro hh
    apply all_of_dropWhile jsWhitespace s.data
    intro x hx
    exact hh x (List.mem_reverse.mpr hx)
  · intro hall x hx
    have h1 : s.data.dropWhile jsWhitespace = [] :=
      List.dropWhile_eq_nil_iff.mpr hall
    rw [h1] at hx
    simp at hx

/-! Claim theorems. -/

/-- C1 (counterexample): submitting the non-empty search term `"pasta"` from a
state with a selected recipe leaves the selection in place — the controller
clears the selection only for an empty term, so `selectedRecipe` is not null
immediately after this search is initiated. -/
theorem c1_search_keeps_selection_counterexample :
    ("pasta" : String) ≠ "" ∧
    (App.handleSearch "pasta" sampleState).selectedRecipe = some sampleRecipe ∧
    some sampleRecipe ≠ (none : Option Recipe) := by
  refine ⟨by decide, ?_, by simp⟩
  rfl

/-- C1 (amended): submitting a search term resets the filter to `all`, enters
the loading state with the error cleared, and leaves the recipe list,
favorites and language untouched; the selection is cleared only when the
search term is empty — for a non-empty term it is left unchanged (in the UI it
is already null, since the search bar is only rendered while no recipe is
selected). -/
theorem c1_search_transitions (searchTerm : String) (s : AppState) :
    (App.handleSearch searchTerm s).filter = Filter.all ∧
    (App.handleSearch searchTerm s).isLoading = true ∧
    (App.handleSearch searchTerm s).error = none ∧
    (App.handleSearch searchTerm s).selectedRecipe =
      (if searchTerm = "" then none else s.selectedRecipe) ∧
    (App.handleSearch searchTerm s).recipes = s.recipes ∧
    (App.handleSearch searchTerm s).favorites = s.favorites ∧
    (App.handleSearch searchTerm s).language = s.language := by
  unfold App.handleSearch App.fetchRecipesStart
  by_cases ht : searchTerm = "" <;> simp [ht]

/-- C2: toggling a favorite name twice in succession restores the original
favorites set — membership in the favorites collection is exactly what it was
before, for every favorites list and every recipe name. -/
theorem c2_toggle_twice_restores_set (favs : List String) (n x : String) :
    x ∈ App.toggleFavorite n (App.toggleFavorite n favs) ↔ x ∈ favs := by
  unfold App.toggleFavorite
  simp only [List.contains, List.elem_iff]
  by_cases h : n ∈ favs
  · have hnot : n ∉ favs.filter fun name => name != n := by
      simp [List.mem_filter]
    simp only [if_pos h, if_neg hnot]
    simp only [List.mem_append, List.mem_filter, List.mem_singleton, bne_iff_ne]
    constructor
    · rintro (⟨h1, _⟩ | rfl)
      · exact h1
      · exact h
    · intro hx
      by_cases hxn : x = n
      · exact Or.inr hxn
      · exact Or.inl ⟨hx, hxn⟩
  · have hmem : n ∈ favs ++ [n] := by simp
    simp only [if_neg h, if_pos hmem]
    simp only [List.mem_filter, List.mem_append, List.mem_singleton, bne_iff_ne]
    constructor
    · rintro ⟨h1 | rfl, h2⟩
      · exact h1
      · exact absurd rfl h2
    · intro hx
      refine ⟨Or.inl hx, ?_⟩
      rintro rfl
      exact h hx

/-- C4 (counterexample): a text-generation failure that is an `Error` with the
empty message resolves to `error = some ""` — the recipe list is cleared, but
the stored error message is empty, not non-empty (and an empty message is
falsy, so the UI does not even render the error branch). -/
theorem c4_empty_message_counterexample :
    (App.fetchRecipesResolve (.error (.isError "")) sampleState).recipes = [] ∧
    (App.fetchRecipesResolve (.error (.isError "")) sampleState).error = some "" := by
  exact ⟨rfl, rfl⟩

/-- C4 (amended): every failure of the text-generation step clears the recipe
list, ends the loading state, and stores the failure's own message (an
`Error`'s message verbatim — possibly empty — and the non-empty default
`"An unknown error occurred"` for non-`Error` throws). -/
theorem c4_text_failure_resolution (e : Thrown) (s : AppState) :
    (App.fetchRecipesResolve (.error e) s).recipes = [] ∧
    (App.fetchRecipesResolve (.error e) s).isLoading = false ∧
    (App.fetchRecipesResolve (.error e) s).error = some (App.errorMessageOf e) ∧
    App.errorMessageOf Thrown.notError = "An unknown error occurred" ∧
    App.errorMessageOf Thrown.notError ≠ "" := by
  refine ⟨rfl, rfl, rfl, rfl, by decide⟩

/-- C5 (counterexample): with two same-named recipes in the list, a successful
image regeneration for the first overwrites the second wholesale — the
sibling's description changes from `"A different soup."` to the updated
recipe's `"A warm classic."`, so not every other recipe is unchanged. -/
theorem c5_name_collision_counterexample :
    ((RecipeDetail.handleRegenerateImageSuccess sampleRecipe
        "https://img.example/new" collidingState).recipes.map
      fun r => r.description) = ["A warm classic.", "A warm classic."] ∧
    (collidingState.recipes.map fun r => r.description) =
      ["A warm classic.", "A different soup."] := by
  exact ⟨rfl, rfl⟩

/-- C5 (amended): after a successful image regeneration the selection becomes
the affected recipe with only its image reference changed (all other fields
equal), and in the backing list every entry whose name equals the affected
recipe's name is replaced wholesale by that updated recipe while every entry
with a different name is unchanged; loading state, error, favorites and
filter are untouched.  When list names are unique and the selection occurs in
the list, this updates exactly the affected recipe's image reference. -/
theorem c5_regenerate_frame (recipe : Recipe) (newImageUrl : String)
    (s : AppState) (i : Nat) :
    (RecipeDetail.handleRegenerateImageSuccess recipe newImageUrl s).selectedRecipe =
      some { recipe with imageUrl := newImageUrl } ∧
    ({ recipe with imageUrl := newImageUrl } : Recipe).toRecipeData =
      recipe.toRecipeData ∧
    (RecipeDetail.handleRegenerateImageSuccess recipe newImageUrl s).recipes[i]? =
      (s.recipes[i]?).map (fun r =>
        if r.recipeName = recipe.recipeName
        then { recipe with imageUrl := newImageUrl } else r) ∧
    (RecipeDetail.handleRegenerateImageSuccess recipe newImageUrl s).isLoading =
      s.isLoading ∧
    (RecipeDetail.handleRegenerateImageSuccess recipe newImageUrl s).error =
      s.error ∧
    (RecipeDetail.handleRegenerateImageSuccess recipe newImageUrl s).favorites =
      s.favorites ∧
    (RecipeDetail.handleRegenerateImageSuccess recipe newImageUrl s).filter =
      s.filter := by
  unfold RecipeDetail.handleRegenerateImageSuccess App.handleUpdateRecipe
  refine ⟨rfl, rfl, ?_, rfl, rfl, rfl, rfl⟩
  exact List.getElem?_map _ s.recipes i

/-- C9: starting from a duplicate-free favorites list, `toggleFavorite`
produces a duplicate-free list — removal filters out every occurrence of the
name and insertion appends it only when absent, so no name ever appears
twice. -/
theorem c9_toggle_preserves_nodup (favs : List String) (n : String)
    (h : favs.Nodup) : (App.toggleFavorite n favs).Nodup := by
  unfold App.toggleFavorite
  simp only [List.contains, List.elem_iff]
  by_cases hm : n ∈ favs
  · simp only [if_pos hm]
    exact h.filter _
  · simp only [if_neg hm]
    simp [List.nodup_append, h, hm]

/-- C9 (witness): the theorem applied to the concrete duplicate-free list
`["Tomato Soup"]` and the name `"Beef Stew"`. -/
theorem c9_toggle_preserves_nodup_witness :
    (["Tomato Soup"] : List String).Nodup ∧
    (App.toggleFavorite "Beef Stew" ["Tomato Soup"]).Nodup :=
  ⟨by decide, c9_toggle_preserves_nodup ["Tomato Soup"] "Beef Stew" (by decide)⟩

/-- C3: in the batch fetch, the image results are joined positionally with
their source recipes — the result has the same length and its `i`-th entry is
the `i`-th source recipe together with its own request's image — and each
per-recipe image equals the spec's retry policy: the first success among at
most 3 attempts, or the empty image reference once all 3 attempts fail,
independently of the sibling recipes. -/
theorem c3_batch_retry_and_join (att : Nat → Nat → AttemptResult)
    (recipesData : List RecipeData) (i : Nat) (h : i < recipesData.length) :
    (GeminiService.fetchStep2 att recipesData).length = recipesData.length ∧
    (GeminiService.fetchStep2 att recipesData)[i]? =
      some ⟨recipesData[i],
        GeminiService.imageUrlOrEmpty (att i) recipesData[i].recipeName⟩ ∧
    GeminiService.imageUrlOrEmpty (att i) recipesData[i].recipeName =
      imageWithinThreeAttempts (att i) := by
  refine ⟨?_, ?_, imageUrlOrEmpty_eq_spec _ _⟩
  · simp [GeminiService.fetchStep2, List.length_mapIdx]
  · simp only [GeminiService.fetchStep2]
    rw [list_getElem?_mapIdx _ _ i h]
    have hl : i < ((recipesData.mapIdx fun k r =>
        GeminiService.imageUrlOrEmpty (att k) r.recipeName)).length := by
      rw [List.length_mapIdx]
      exact h
    rw [List.getD_eq_getElem _ "" hl, list_getElem_mapIdx _ _ i h hl]

/-- C3 (witness): the theorem applied at index 0 of a concrete two-recipe
batch whose first recipe's attempts all throw while the second recipe's
succeed — recipe 0 degrades to the empty image reference, recipe 1 keeps its
generated image. -/
theorem c3_batch_retry_and_join_witness :
    0 < batchRecipes.length ∧
    ((GeminiService.fetchStep2 attMixed batchRecipes).length = batchRecipes.length ∧
     (GeminiService.fetchStep2 attMixed batchRecipes)[0]? =
       some ⟨batchRecipes.get ⟨0, by decide⟩,
         GeminiService.imageUrlOrEmpty (attMixed 0)
           (batchRecipes.get ⟨0, by decide⟩).recipeName⟩ ∧
     GeminiService.imageUrlOrEmpty (attMixed 0)
         (batchRecipes.get ⟨0, by decide⟩).recipeName =
       imageWithinThreeAttempts (attMixed 0)) ∧
    imageWithinThreeAttempts (attMixed 0) = "" ∧
    imageWithinThreeAttempts (attMixed 1) = "https://img.example/ok" :=
  ⟨by decide, c3_batch_retry_and_join attMixed batchRecipes 0 (by decide),
    rfl, rfl⟩

/-- C6 (counterexample): a parsed response whose `recipes` member is an array
of non-recipe values — so its top level does not contain an array of recipe
objects as declared by the response schema — is not rejected with a
parse-format error: the service returns it as a (cast) success. -/
theorem c6_nonrecipe_array_counterexample :
    Json.hasRecipeObjectArray parsedNonRecipeArray = false ∧
    GeminiService.fetchRecipes attAllFail castDecode parsedNonRecipeArray =
      .ok [⟨sampleRecipeData, ""⟩] :=
  ⟨rfl, rfl⟩

/-- C6 (amended): a parsed response containing an empty `recipes` array yields
the empty sequence and no error, and the parse-format error
`"Failed to parse recipes from API response."` is raised exactly when the
parsed top level is falsy or its `recipes` member is not an array — the
elements of the array are not validated against the recipe shape locally. -/
theorem c6_parse_shape (att : Nat → Nat → AttemptResult)
    (decode : Json → RecipeData) (parsedData : Json) :
    (GeminiService.parseStage parsedData =
        .error (.isError "Failed to parse recipes from API response.")
      ↔ parseShapeOk parsedData = false) ∧
    (parsedData.getMember "recipes" = some (Json.arr []) →
      GeminiService.fetchRecipes att decode parsedData = .ok []) ∧
    (parseShapeOk parsedData = false →
      GeminiService.fetchRecipes att decode parsedData =
        .error (.isError "Failed to parse recipes from API response.")) := by
  cases parsedData with
  | obj fields =>
    rcases hm : lookupField fields "recipes" with _ | v
    · simp [GeminiService.parseStage, GeminiService.fetchRecipes, parseShapeOk,
        Json.getMember, Json.truthy, hm]
    · cases v <;>
        simp [GeminiService.parseStage, GeminiService.fetchRecipes, parseShapeOk,
          Json.getMember, Json.truthy, hm]
      rename_i elems
      intro he
      subst he
      simp
  | null =>
    simp [GeminiService.parseStage, GeminiService.fetchRecipes, parseShapeOk,
      Json.getMember, Json.truthy]
  | bool b =>
    cases b <;>
      simp [GeminiService.parseStage, GeminiService.fetchRecipes, parseShapeOk,
        Json.getMember, Json.truthy]
  | num q =>
    by_cases hq : q = 0 <;>
      simp [GeminiService.parseStage, GeminiService.fetchRecipes, parseShapeOk,
        Json.getMember, Json.truthy, hq]
  | str s =>
    by_cases hs : s = "" <;>
      simp [GeminiService.parseStage, GeminiService.fetchRecipes, parseShapeOk,
        Json.getMember, Json.truthy, hs]
  | arr elems =>
    simp [GeminiService.parseStage, GeminiService.fetchRecipes, parseShapeOk,
      Json.getMember, Json.truthy]

/-- C6 (witness): the theorem applied to a concrete parsed response with an
empty `recipes` array — the service returns the empty sequence without
error. -/
theorem c6_parse_shape_witness :
    GeminiService.fetchRecipes attAllFail castDecode parsedEmptyArray = .ok [] :=
  (c6_parse_shape attAllFail castDecode parsedEmptyArray).2.1 rfl

/-- C7: the image regeneration helper performs exactly one image-generation
attempt — its result is determined by attempt 0 alone (any two oracles
agreeing on attempt 0 give the same result), returning the new image
reference on success and otherwise raising to its caller the attempt's own
`Error` (or a fresh wrapping `Error` for a non-`Error` throw); being a pure
function of the recipe, it modifies nothing. -/
theorem c7_regenerate_single_attempt (att att2 : Nat → AttemptResult)
    (recipe : RecipeData) :
    GeminiService.regenerateRecipeImage att recipe =
      (match att 0 with
       | .success url => .ok url
       | .failure (.isError m) => .error (.isError m)
       | .failure .notError =>
         .error
           (.isError "An unknown error occurred while regenerating the image.")) ∧
    (att 0 = att2 0 →
      GeminiService.regenerateRecipeImage att recipe =
        GeminiService.regenerateRecipeImage att2 recipe) := by
  have key : ∀ a : Nat → AttemptResult,
      GeminiService.regenerateRecipeImage a recipe =
        (match a 0 with
         | .success url => .ok url
         | .failure (.isError m) => .error (.isError m)
         | .failure .notError =>
           .error
             (.isError "An unknown error occurred while regenerating the image.")) := by
    intro a
    rcases h0 : a 0 with u | e
    · simp [GeminiService.regenerateRecipeImage,
        GeminiService.generateImageForRecipeWithRetry, GeminiService.retryGo, h0]
    · rcases e with m | _ <;>
        simp [GeminiService.regenerateRecipeImage,
          GeminiService.generateImageForRecipeWithRetry, GeminiService.retryGo, h0]
  refine ⟨key att, fun hh => ?_⟩
  rw [key att, key att2, hh]

/-- C7 (witness): the theorem applied to a concrete always-succeeding oracle:
one attempt, returning its image reference. -/
theorem c7_regenerate_single_attempt_witness :
    GeminiService.regenerateRecipeImage attOk sampleRecipeData =
      .ok "https://img.example/regen" :=
  ((c7_regenerate_single_attempt attOk attOk sampleRecipeData).1).trans rfl

/-- C10: the search bar dispatches a search exactly when the submitted text
has at least one non-whitespace character (otherwise it dispatches nothing),
and the dispatched term is the entered text with leading and trailing
whitespace removed — in particular the empty term is never dispatched. -/
theorem c10_submit_trimmed_nonempty (term : String) :
    SearchBar.handleSubmit term =
      (if term.data.all jsWhitespace then none else some (jsTrim term)) ∧
    SearchBar.handleSubmit term ≠ some "" := by
  have hiff := jsTrim_eq_empty_iff term
  constructor
  · unfold SearchBar.handleSubmit
    by_cases h : jsTrim term = ""
    · rw [if_pos h, if_pos (List.all_eq_true.mpr (hiff.mp h))]
    · have hna : ¬ (term.data.all jsWhitespace = true) := fun hall =>
        h (hiff.mpr (List.all_eq_true.mp hall))
      rw [if_neg h, if_neg hna]
  · unfold SearchBar.handleSubmit
    by_cases h : jsTrim term = ""
    · simp [h]
    · simp only [if_neg h, ne_eq, Option.some.injEq]
      exact h

end RecipeAI
